import Mathlib

/-!
Shallow embedding of the `scaffold` CLI (src/example.rs), a project-template
generator for React, React Native and Rust projects.

Each generator is modelled as a pure function from its inputs to a trace of
file-system effects performed under the project root, paired with an outcome.
Paths in effects are relative to the project root directory (the project
`name` given on the command line); the root itself is the empty relative
path `""`.  The result of the single up-front existence check on the target
path is passed in as the boolean `pathExists`, and the outcome of the
external `cargo` invocation (exit status, captured stderr, the `Cargo.toml`
it produced) is passed in as parameters of the Rust generator, since both
are environment inputs of the program.
-/

namespace Scaffold

/-- A file-system / process effect performed by a generator.  `mkdir` and
`write` paths are relative to the project root; `exec` records an external
process invocation (command and arguments). -/
inductive Effect where
  | mkdir (path : String)
  | write (path : String) (content : String)
  | exec (cmd : String) (args : List String)
deriving DecidableEq

/-- Embeds `get_react_structure` (src/example.rs:214). -/
def get_react_structure : List String :=
  ["src", "src/components", "src/hooks", "src/utils", "src/types", "public", ".vscode"]

/-- Embeds `get_react_native_structure` (src/example.rs:226). -/
def get_react_native_structure : List String :=
  ["src", "src/components", "src/screens", "src/navigation", "src/hooks",
   "src/utils", "src/types", "android", "ios", ".vscode"]

/-- Embeds `create_directory_structure` (src/example.rs:203): creates the
base path (relative path `""`), then each listed directory under it. -/
def create_directory_structure (dirs : List String) : List Effect :=
  Effect.mkdir "" :: dirs.map Effect.mkdir

/-- The runtime `dependencies` vector built by `generate_package_json`
(src/example.rs:242 and 267): `react` always, plus the navigation pair when
`navigation` is set. -/
def dependencies (navigation : Bool) : List (String × String) :=
  [("react", "^18.2.0")] ++
    (if navigation then
      [("@react-navigation/native", "^6.1.7"), ("@react-navigation/stack", "^6.3.17")]
     else [])

/-- The `dev_dependencies` vector built by `generate_package_json`
(src/example.rs:246, 251, 259): vite tooling always, TypeScript tooling when
`typescript`, testing libraries when `testing`. -/
def dev_dependencies (typescript testing : Bool) : List (String × String) :=
  [("@vitejs/plugin-react", "^4.0.3"), ("vite", "^4.4.5")] ++
    (if typescript then
      [("typescript", "^5.0.2"), ("@types/react", "^18.2.15"), ("@types/react-dom", "^18.2.7")]
     else []) ++
    (if testing then
      [("@testing-library/react", "^13.4.0"), ("@testing-library/jest-dom", "^5.17.0"),
       ("vitest", "^0.34.4")]
     else [])

/-- One dependency line, as formatted at src/example.rs:276. -/
def depLine (p : String × String) : String :=
  "    \"" ++ p.1 ++ "\": \"" ++ p.2 ++ "\""

/-- The dependency-map body: lines joined with `,\n` (src/example.rs:275-283). -/
def joinDeps (l : List (String × String)) : String :=
  String.intercalate ",\n" (l.map depLine)

/-- The conditional `test` script snippet interpolated into the script table
(src/example.rs:304-305). -/
def test_script (testing : Bool) : String :=
  if testing then ",\n    \"test\": \"vitest\"" else ""

/-- The `"scripts"` object of the generated manifest, verbatim from the
format string at src/example.rs:290-295: dev/build/lint/preview always,
plus the `test` entry when `testing`. -/
def scripts_block (testing : Bool) : String :=
  "\"scripts\": \x7b\n    \"dev\": \"vite\",\n    \"build\": \"vite build\",\n    \"lint\": \"eslint . --ext ts,tsx --report-unused-disable-directives --max-warnings 0\",\n    \"preview\": \"vite preview\""
    ++ test_script testing ++ "\n  \x7d"

/-- The manifest text before the (quoted, unescaped) project name
(src/example.rs:285-286). -/
def pjHead : String := "\x7b\n  \"name\": "

/-- The manifest text between the quoted name and the script table
(src/example.rs:287-289). -/
def pjMid : String :=
  ",\n  \"private\": true,\n  \"version\": \"0.0.0\",\n  \"type\": \"module\",\n  "

/-- The manifest text after the script table: the dependency and
dev-dependency maps (src/example.rs:296-302). -/
def pjTail (typescript testing navigation : Bool) : String :=
  ",\n  \"dependencies\": \x7b\n" ++ joinDeps (dependencies navigation) ++
    "\n  \x7d,\n  \"devDependencies\": \x7b\n" ++ joinDeps (dev_dependencies typescript testing) ++
    "\n  \x7d\n\x7d"

/-- Embeds `generate_package_json` (src/example.rs:241-309).  The Rust
function returns `Result<String>` but never fails; it is modelled as the
string it produces.  The project name is interpolated verbatim between
quote characters, with no escaping. -/
def generate_package_json (name : String) (typescript testing navigation : Bool) : String :=
  pjHead ++ ("\"" ++ name ++ "\"") ++ pjMid ++ scripts_block testing ++
    pjTail typescript testing navigation

/-- Embeds `generate_tsconfig` (src/example.rs:311-333): a fixed string,
independent of every option. -/
def generate_tsconfig : String :=
  "\x7b\n  \"compilerOptions\": \x7b\n    \"target\": \"ES2020\",\n    \"useDefineForClassFields\": true,\n    \"lib\": [\"ES2020\", \"DOM\", \"DOM.Iterable\"],\n    \"module\": \"ESNext\",\n    \"skipLibCheck\": true,\n    \"moduleResolution\": \"bundler\",\n    \"allowImportingTsExtensions\": true,\n    \"resolveJsonModule\": true,\n    \"isolatedModules\": true,\n    \"noEmit\": true,\n    \"jsx\": \"react-jsx\",\n    \"strict\": true,\n    \"noUnusedLocals\": true,\n    \"noUnusedParameters\": true,\n    \"noFallthroughCasesInSwitch\": true\n  \x7d,\n  \"include\": [\"src\"],\n  \"references\": [\x7b \"path\": \"./tsconfig.node.json\" \x7d]\n\x7d"

/-- The root-component text written by `generate_react_files`
(src/example.rs:338-352), with the file extension interpolated into the
displayed hint line. -/
def react_app_content (ext : String) : String :=
  "import React from \x27react\x27;\nimport \x27./App.css\x27;\n\nfunction App() \x7b\n  return (\n    <div className=\"App\">\n      <header className=\"App-header\">\n        <h1>Welcome to your new React project!</h1>\n        <p>Edit src/App."
    ++ ext ++ " and save to reload.</p>\n      </header>\n    </div>\n  );\n\x7d\n\nexport default App;"

/-- The entry-point text written by `generate_react_files`
(src/example.rs:356-365). -/
def react_main_content (ext : String) : String :=
  "import React from \x27react\x27;\nimport ReactDOM from \x27react-dom/client\x27;\nimport App from \x27./App."
    ++ ext ++ "\x27;\nimport \x27./index.css\x27;\n\nReactDOM.createRoot(document.getElementById(\x27root\x27)!).render(\n  <React.StrictMode>\n    <App />\n  </React.StrictMode>,\n);"

/-- The stylesheet text written by `generate_react_files`
(src/example.rs:370-393). -/
def react_css_content : String :=
  "body \x7b\n  margin: 0;\n  font-family: -apple-system, BlinkMacSystemFont, \x27Segoe UI\x27, \x27Roboto\x27, \x27Oxygen\x27,\n    \x27Ubuntu\x27, \x27Cantarell\x27, \x27Fira Sans\x27, \x27Droid Sans\x27, \x27Helvetica Neue\x27,\n    sans-serif;\n  -webkit-font-smoothing: antialiased;\n  -moz-osx-font-smoothing: grayscale;\n\x7d\n\n.App \x7b\n  text-align: center;\n\x7d\n\n.App-header \x7b\n  background-color: #282c34;\n  padding: 20px;\n  color: white;\n  min-height: 100vh;\n  display: flex;\n  flex-direction: column;\n  align-items: center;\n  justify-content: center;\n  font-size: calc(10px + 2vmin);\n\x7d"

/-- Embeds `generate_react_files` (src/example.rs:335-399): root component,
entry point, two stylesheets, the extensions chosen by `typescript`. -/
def generate_react_files (typescript : Bool) : List Effect :=
  let ext := if typescript then "tsx" else "jsx"
  [Effect.write ("src/App." ++ ext) (react_app_content ext),
   Effect.write ("src/main." ++ (if typescript then "tsx" else "jsx")) (react_main_content ext),
   Effect.write "src/App.css" react_css_content,
   Effect.write "src/index.css" "/* Global styles */"]

/-- The root-component text written by `generate_react_native_files`
(src/example.rs:404-450); `fc` is the interpolated type annotation
(`": React.FC"` when `typescript`, empty otherwise). -/
def rn_app_content (fc : String) : String :=
  "import React from \x27react\x27;\nimport \x7b\n  SafeAreaView,\n  ScrollView,\n  StatusBar,\n  StyleSheet,\n  Text,\n  View,\n\x7d from \x27react-native\x27;\n\nfunction App()"
    ++ fc ++ " \x7b\n  return (\n    <SafeAreaView style=\x7bstyles.container\x7d>\n      <StatusBar barStyle=\"dark-content\" />\n      <ScrollView contentInsetAdjustmentBehavior=\"automatic\">\n        <View style=\x7bstyles.body\x7d>\n          <Text style=\x7bstyles.title\x7d>Welcome to React Native!</Text>\n          <Text style=\x7bstyles.subtitle\x7d>Your project is ready to go.</Text>\n        </View>\n      </ScrollView>\n    </SafeAreaView>\n  );\n\x7d\n\nconst styles = StyleSheet.create(\x7b\n  container: \x7b\n    flex: 1,\n  \x7d,\n  body: \x7b\n    backgroundColor: \x27#fff\x27,\n    flex: 1,\n    justifyContent: \x27center\x27,\n    alignItems: \x27center\x27,\n    padding: 20,\n  \x7d,\n  title: \x7b\n    fontSize: 24,\n    fontWeight: \x27bold\x27,\n    marginBottom: 10,\n  \x7d,\n  subtitle: \x7b\n    fontSize: 16,\n    color: \x27#666\x27,\n  \x7d,\n\x7d);\n\nexport default App;"

/-- Embeds `generate_react_native_files` (src/example.rs:401-455): writes the
single root-component file; the `_navigation` parameter is unused in the
source and unused here. -/
def generate_react_native_files (typescript : Bool) (_navigation : Bool) : List Effect :=
  let ext := if typescript then "tsx" else "jsx"
  [Effect.write ("src/App." ++ ext) (rn_app_content (if typescript then ": React.FC" else ""))]

/-- The fixed block `enhance_cargo_toml` appends to `Cargo.toml`
(src/example.rs:462-483): commented-out dependency suggestions and two
build-profile sections. -/
def cargo_append_block : String :=
  "\n\n# Common useful dependencies (uncomment as needed)\n[dependencies]\n# clap = \x7b version = \"4.0\", features = [\"derive\"] \x7d\n# serde = \x7b version = \"1.0\", features = [\"derive\"] \x7d\n# serde_json = \"1.0\"\n# tokio = \x7b version = \"1.0\", features = [\"full\"] \x7d\n# anyhow = \"1.0\"\n\n[dev-dependencies]\n# criterion = \"0.5\"\n\n# Performance optimizations\n[profile.release]\nlto = true\ncodegen-units = 1\npanic = \"abort\"\n\n[profile.dev]\ndebug = true\n"

/-- Embeds `enhance_cargo_toml` (src/example.rs:457-487): reads the existing
`Cargo.toml` content and rewrites the file with the fixed block appended. -/
def enhance_cargo_toml (existingContent : String) : Effect :=
  Effect.write "Cargo.toml" (existingContent ++ cargo_append_block)

/-- Embeds `create_react_project` (src/example.rs:108-140).  `pathExists` is
the result of the `project_path.exists()` check: when true the generator
bails with the "already exists" error before any effect; otherwise it
creates the skeleton, writes the manifest (`navigation = false`), writes
`tsconfig.json` when `typescript`, and writes the source/style files. -/
def create_react_project (name : String) (typescript testing : Bool)
    (pathExists : Bool) : List Effect × Except String Unit :=
  if pathExists then
    ([], Except.error ("Directory " ++ name ++ " already exists"))
  else
    (create_directory_structure get_react_structure ++
      [Effect.write "package.json" (generate_package_json name typescript testing false)] ++
      (if typescript then [Effect.write "tsconfig.json" generate_tsconfig] else []) ++
      generate_react_files typescript,
     Except.ok ())

/-- Embeds `create_react_native_project` (src/example.rs:142-170): same
shape as the React generator with the React Native skeleton, the manifest
called with `testing = false` and the given `navigation`, and the single
root-component file. -/
def create_react_native_project (name : String) (typescript navigation : Bool)
    (pathExists : Bool) : List Effect × Except String Unit :=
  if pathExists then
    ([], Except.error ("Directory " ++ name ++ " already exists"))
  else
    (create_directory_structure get_react_native_structure ++
      [Effect.write "package.json" (generate_package_json name typescript false navigation)] ++
      (if typescript then [Effect.write "tsconfig.json" generate_tsconfig] else []) ++
      generate_react_native_files typescript navigation,
     Except.ok ())

/-- Embeds `create_rust_project` (src/example.rs:172-201).  After the
existence check it invokes `cargo new <name> --name <name>` with `--lib`
appended when `project_type == "library"`.  `cargoSucceeds` is the exit
status of that invocation, `cargoStderr` its captured error output, and
`producedToml` the `Cargo.toml` content it left on disk; on success
`enhance_cargo_toml` rewrites that file with the fixed block appended. -/
def create_rust_project (name project_type : String) (pathExists : Bool)
    (cargoSucceeds : Bool) (cargoStderr : String) (producedToml : String) :
    List Effect × Except String Unit :=
  if pathExists then
    ([], Except.error ("Directory " ++ name ++ " already exists"))
  else
    let cargoNew := Effect.exec "cargo"
      (["new", name, "--name", name] ++
        (if project_type == "library" then ["--lib"] else []))
    if cargoSucceeds then
      ([cargoNew, enhance_cargo_toml producedToml], Except.ok ())
    else
      ([cargoNew], Except.error ("Cargo new failed: " ++ cargoStderr))

/-- The directories created by an effect trace, in order. -/
def mkdirPaths (effs : List Effect) : List String :=
  effs.filterMap fun e =>
    match e with
    | Effect.mkdir p => some p
    | _ => none

/-- The file paths written by an effect trace, in order. -/
def writePaths (effs : List Effect) : List String :=
  effs.filterMap fun e =>
    match e with
    | Effect.write p _ => some p
    | _ => none

/-- The contents written to a given path by an effect trace, in order. -/
def writesTo (effs : List Effect) (p : String) : List String :=
  effs.filterMap fun e =>
    match e with
    | Effect.write q c => if q == p then some c else none
    | _ => none

/-- The external-process invocations of an effect trace, in order. -/
def execCalls (effs : List Effect) : List (String × List String) :=
  effs.filterMap fun e =>
    match e with
    | Effect.exec c a => some (c, a)
    | _ => none

/-- The effect trace with the manifest (`package.json`) writes removed. -/
def withoutManifest (effs : List Effect) : List Effect :=
  effs.filter fun e =>
    match e with
    | Effect.write p _ => !(p == "package.json")
    | _ => true

/-- Bool test for `needle` occurring as a contiguous sublist of a list. -/
def infixL (needle : List Char) : List Char → Bool
  | [] => needle.isEmpty
  | c :: cs => List.isPrefixOf needle (c :: cs) || infixL needle cs

/-- Bool test for `needle` occurring as a substring of `hay`. -/
def containsB (hay needle : String) : Bool :=
  infixL needle.data hay.data

/-- Bool test for `s` beginning with `pre`. -/
def strStarts (s pre : String) : Bool :=
  List.isPrefixOf pre.data s.data

/-- Bool test for `s` ending with `suf`. -/
def strEnds (s suf : String) : Bool :=
  List.isPrefixOf suf.data.reverse s.data.reverse

/-- The `\x7b` character, kept as a named constant. -/
def lbrace : Char := Char.ofNat 123

/-- The `\x7d` character, kept as a named constant. -/
def rbrace : Char := Char.ofNat 125

/-- Modelled from the spec: JSON whitespace skipping, part of the "valid
JSON" notion the spec appeals to when calling the unescaped manifest
"invalid output". -/
def skipWs : List Char → List Char
  | [] => []
  | c :: cs => if c == ' ' || c == '\n' || c == '\t' || c == '\r' then skipWs cs else c :: cs

/-- Modelled from the spec: lex a JSON string body after its opening quote,
returning the input past the closing quote.  Escape sequences are accepted
more liberally than RFC 8259, so the recogniser accepts a superset of JSON
strings. -/
def lexStr : List Char → Option (List Char)
  | [] => none
  | '"' :: cs => some cs
  | '\\' :: [] => none
  | '\\' :: _ :: cs => lexStr cs
  | _ :: cs => lexStr cs

/-- Modelled from the spec: characters that may make up a JSON number; the
number lexer accepts any nonempty run of these, a superset of RFC 8259
numbers. -/
def numChar (c : Char) : Bool :=
  c.isDigit || c == '-' || c == '+' || c == '.' || c == 'e' || c == 'E'

/-- Consume an expected literal character sequence. -/
def parseLit : List Char → List Char → Option (List Char)
  | [], s => some s
  | _ :: _, [] => none
  | c :: cs, d :: ds => if c == d then parseLit cs ds else none

mutual

/-- Modelled from the spec: recognise one JSON value (string, object, array,
`true`/`false`/`null`, number) and return the remaining input.  `fuel`
bounds the recursion; `jsonValid` supplies more fuel than any input can
consume.  Strings and numbers are lexed leniently, so the recogniser
accepts a superset of RFC 8259: whenever it rejects a text, that text is
not valid JSON. -/
def parseVal : Nat → List Char → Option (List Char)
  | 0, _ => none
  | Nat.succ fuel, s =>
    match skipWs s with
    | [] => none
    | c :: cs =>
      if c == '"' then lexStr cs
      else if c == lbrace then
        (match skipWs cs with
         | d :: ds => if d == rbrace then some ds else parseMembers fuel (d :: ds)
         | [] => none)
      else if c == '[' then
        (match skipWs cs with
         | d :: ds => if d == ']' then some ds else parseElems fuel (d :: ds)
         | [] => none)
      else if c == 't' then parseLit ['r', 'u', 'e'] cs
      else if c == 'f' then parseLit ['a', 'l', 's', 'e'] cs
      else if c == 'n' then parseLit ['u', 'l', 'l'] cs
      else if numChar c then some (cs.dropWhile numChar)
      else none

/-- Modelled from the spec: recognise a nonempty JSON object member list up
to and including the closing brace. -/
def parseMembers : Nat → List Char → Option (List Char)
  | 0, _ => none
  | Nat.succ fuel, s =>
    match skipWs s with
    | c :: cs =>
      if c == '"' then
        match lexStr cs with
        | some rest =>
          (match skipWs rest with
           | d :: rest2 =>
             if d == ':' then
               match parseVal fuel rest2 with
               | some rest3 =>
                 (match skipWs rest3 with
                  | e :: rest4 =>
                    if e == ',' then parseMembers fuel rest4
                    else if e == rbrace then some rest4
                    else none
                  | [] => none)
               | none => none
             else none
           | [] => none)
        | none => none
      else none
    | [] => none

/-- Modelled from the spec: recognise a nonempty JSON array element list up
to and including the closing bracket. -/
def parseElems : Nat → List Char → Option (List Char)
  | 0, _ => none
  | Nat.succ fuel, s =>
    match parseVal fuel s with
    | some rest =>
      (match skipWs rest with
       | e :: rest2 =>
         if e == ',' then parseElems fuel rest2
         else if e == ']' then some rest2
         else none
       | [] => none)
    | none => none

end

/-- Modelled from the spec: `jsonValid s` holds when `s` is one JSON value
followed only by whitespace.  Because string and number lexing are lenient,
`jsonValid s = false` implies `s` is not valid JSON. -/
def jsonValid (s : String) : Bool :=
  match parseVal (s.length + 1) s.data with
  | some rest => (skipWs rest).isEmpty
  | none => false

theorem string_append_assoc (a b c : String) : a ++ b ++ c = a ++ (b ++ c) := by
  apply String.ext
  simp [String.data_append]

/-- Claim C1: for every generator (React, React Native, Rust) and every
input, if the target path already exists at the initial check, the generator
fails with the "already exists" error and performs no directory creation, no
file write, and no external-tool invocation: its effect trace is empty. -/
theorem c1_existing_path_rejected_without_effects :
    ∀ (name ptype stderr toml : String) (ts testing nav succ : Bool),
      create_react_project name ts testing true =
        ([], Except.error ("Directory " ++ name ++ " already exists")) ∧
      create_react_native_project name ts nav true =
        ([], Except.error ("Directory " ++ name ++ " already exists")) ∧
      create_rust_project name ptype true succ stderr toml =
        ([], Except.error ("Directory " ++ name ++ " already exists")) := by
  intro name ptype stderr toml ts testing nav succ
  exact ⟨rfl, rfl, rfl⟩

/-- Claim C2: on a non-existing path the React generator creates exactly the
directories \x7bsrc, src/components, src/hooks, src/utils, src/types, public,
.vscode\x7d under the project root (plus the root itself, relative path `""`),
and the React Native generator creates exactly its ten fixed directories;
the created set is independent of all option flags. -/
theorem c2_fixed_directory_skeletons :
    ∀ (name : String) (ts testing nav : Bool),
      mkdirPaths (create_react_project name ts testing false).1 =
        "" :: get_react_structure ∧
      mkdirPaths (create_react_native_project name ts nav false).1 =
        "" :: get_react_native_structure ∧
      get_react_structure.toFinset =
        {"src", "src/components", "src/hooks", "src/utils", "src/types",
         "public", ".vscode"} ∧
      get_react_native_structure.toFinset =
        {"src", "src/components", "src/screens", "src/navigation", "src/hooks",
         "src/utils", "src/types", "android", "ios", ".vscode"} := by
  intro name ts testing nav
  refine ⟨?_, ?_, by decide, by decide⟩
  · cases ts <;> cases testing <;> rfl
  · cases ts <;> cases nav <;> rfl

/-- Claim C3: the manifest's script table always contains dev, build, lint
and preview entries, and a `test` entry exactly when `includeTesting`; the
manifest text produced by the manifest builder contains that script table as
a substring for every input. -/
theorem c3_script_table_test_iff_testing :
    (∀ testing : Bool,
      containsB (scripts_block testing) "\"dev\":" = true ∧
      containsB (scripts_block testing) "\"build\":" = true ∧
      containsB (scripts_block testing) "\"lint\":" = true ∧
      containsB (scripts_block testing) "\"preview\":" = true ∧
      containsB (scripts_block testing) "\"test\":" = testing) ∧
    ∀ (name : String) (ts testing nav : Bool),
      ∃ a b, generate_package_json name ts testing nav =
        a ++ scripts_block testing ++ b := by
  refine ⟨by decide, ?_⟩
  intro name ts testing nav
  exact ⟨pjHead ++ ("\"" ++ name ++ "\"") ++ pjMid, pjTail ts testing nav, rfl⟩

/-- Claim C4: for every React or React Native invocation, `tsconfig.json` is
written (with the fixed content `generate_tsconfig`, independent of every
other option) exactly when `useTypedLanguage` is true. -/
theorem c4_tsconfig_written_iff_typescript :
    ∀ (name : String) (ts testing nav : Bool),
      writesTo (create_react_project name ts testing false).1 "tsconfig.json" =
        (if ts then [generate_tsconfig] else []) ∧
      writesTo (create_react_native_project name ts nav false).1 "tsconfig.json" =
        (if ts then [generate_tsconfig] else []) := by
  intro name ts testing nav
  constructor
  · cases ts <;> cases testing <;> rfl
  · cases ts <;> cases nav <;> rfl

/-- Claim C5: the React Native generator writes exactly one file under
`src/`, the root component `src/App.tsx` / `src/App.jsx` chosen by
`useTypedLanguage`; it writes no `src/index.*`, no `src/main.*` and no
stylesheet, and in the name="mobile", typescript=true, navigation=true run
the file `src/App.tsx` under the project root is written. -/
theorem c5_react_native_single_source_file :
    ∀ (name : String) (ts nav : Bool),
      (writePaths (create_react_native_project name ts nav false).1).filter
          (fun p => strStarts p "src/") =
        ["src/App." ++ (if ts then "tsx" else "jsx")] ∧
      (writePaths (create_react_native_project name ts nav false).1).all
          (fun p => !(strStarts p "src/index") && !(strStarts p "src/main") &&
            !(strEnds p ".css")) = true ∧
      "src/App.tsx" ∈ writePaths (create_react_native_project "mobile" true true false).1 := by
  intro name ts nav
  refine ⟨?_, ?_, by decide⟩
  · cases ts <;> cases nav <;> rfl
  · cases ts <;> cases nav <;> rfl

/-- Claim C6: the Rust generator invokes the external tool as
`cargo new <name> --name <name>`, appending `--lib` exactly when
`project_type = "library"`; on tool success the written `Cargo.toml` is the
tool-produced content with the fixed commented-dependency and build-profile
block appended verbatim. -/
theorem c6_cargo_invocation_and_toml_append :
    ∀ (name ptype stderr toml : String),
      execCalls (create_rust_project name ptype false true stderr toml).1 =
        [("cargo", ["new", name, "--name", name] ++
          (if ptype == "library" then ["--lib"] else []))] ∧
      (create_rust_project name "library" false true stderr toml).1 =
        [Effect.exec "cargo" ["new", name, "--name", name, "--lib"],
         Effect.write "Cargo.toml" (toml ++ cargo_append_block)] ∧
      writesTo (create_rust_project name ptype false true stderr toml).1 "Cargo.toml" =
        [toml ++ cargo_append_block] := by
  intro name ptype stderr toml
  exact ⟨rfl, rfl, rfl⟩

/-- Claim C7: the runtime dependency list of the manifest contains
`@react-navigation/native` and `@react-navigation/stack` exactly when
`includeNavigation`; every React Native run writes the manifest produced by
the manifest builder with that dependency list embedded. -/
theorem c7_navigation_pair_iff_navigation :
    (∀ nav : Bool,
      ((dependencies nav).map Prod.fst).contains "@react-navigation/native" = nav ∧
      ((dependencies nav).map Prod.fst).contains "@react-navigation/stack" = nav) ∧
    ∀ (name : String) (ts nav : Bool),
      writesTo (create_react_native_project name ts nav false).1 "package.json" =
        [generate_package_json name ts false nav] ∧
      ∃ a b, generate_package_json name ts false nav =
        a ++ joinDeps (dependencies nav) ++ b := by
  refine ⟨by decide, ?_⟩
  intro name ts nav
  constructor
  · cases ts <;> cases nav <;> rfl
  · refine ⟨pjHead ++ ("\"" ++ name ++ "\"") ++ pjMid ++ scripts_block false ++
      ",\n  \"dependencies\": \x7b\n",
      "\n  \x7d,\n  \"devDependencies\": \x7b\n" ++ joinDeps (dev_dependencies ts false) ++
      "\n  \x7d\n\x7d", ?_⟩
    simp only [generate_package_json, pjTail, string_append_assoc]

set_option maxRecDepth 40000 in
/-- Claim C8: the React root component is written at `src/App.tsx` /
`src/App.jsx` chosen by `useTypedLanguage` and its content contains the
literal substring `App.tsx` / `App.jsx` for that same extension; in the
name="demo", typescript=false, testing=false run, `src/App.jsx` is written
under the project root with content containing `App.jsx`, and the manifest
has no `"test"` key. -/
theorem c8_react_app_file_and_demo_run :
    (∀ (name : String) (ts testing : Bool),
      writesTo (create_react_project name ts testing false).1
          ("src/App." ++ (if ts then "tsx" else "jsx")) =
        [react_app_content (if ts then "tsx" else "jsx")]) ∧
    (∀ ts : Bool,
      containsB (react_app_content (if ts then "tsx" else "jsx"))
          ("App." ++ (if ts then "tsx" else "jsx")) = true) ∧
    "src/App.jsx" ∈ writePaths (create_react_project "demo" false false false).1 ∧
    containsB (react_app_content "jsx") "App.jsx" = true ∧
    containsB (generate_package_json "demo" false false false) "\"test\"" = false := by
  refine ⟨?_, by decide, by decide, by decide, by decide⟩
  intro name ts testing
  cases ts <;> cases testing <;> rfl

set_option maxRecDepth 40000 in
/-- Claim C9: the manifest builder inserts the project name verbatim and
unescaped between quote characters for every input; for the name `my"app`
(which contains a quotation mark) the produced manifest text is rejected by
a lenient JSON recogniser and hence is not valid JSON, while a plain name
yields an accepted text. -/
theorem c9_unescaped_name_breaks_json :
    (∀ (name : String) (ts testing nav : Bool),
      ∃ a b, generate_package_json name ts testing nav =
        a ++ ("\"" ++ name ++ "\"") ++ b) ∧
    containsB "my\"app" "\"" = true ∧
    jsonValid (generate_package_json "my\"app" false false false) = false ∧
    jsonValid (generate_package_json "demo" false false false) = true := by
  refine ⟨?_, by decide, by decide, by decide⟩
  intro name ts testing nav
  exact ⟨pjHead, pjMid ++ scripts_block testing ++ pjTail ts testing nav, by
    simp only [generate_package_json, string_append_assoc]⟩

/-- Claim C10: the React Native file builder ignores the navigation flag
entirely: its output is identical for `includeNavigation` true and false,
and the full generator's effect traces for the two flag values agree once
the manifest write is removed, so navigation influences only the
manifest. -/
theorem c10_file_builder_ignores_navigation :
    (∀ ts n1 n2 : Bool,
      generate_react_native_files ts n1 = generate_react_native_files ts n2) ∧
    ∀ (name : String) (ts n1 n2 : Bool),
      withoutManifest (create_react_native_project name ts n1 false).1 =
        withoutManifest (create_react_native_project name ts n2 false).1 := by
  refine ⟨fun ts n1 n2 => rfl, ?_⟩
  intro name ts n1 n2
  cases ts <;> rfl

end Scaffold
